import Mathlib

set_option maxRecDepth 100000

/-!
Verification of the scraping-and-cross-referencing engine of
`seiyuu-search.py` (a MyAnimeList voice-actor search tool).

The Python source is shallowly embedded below.  Pages and HTTP bodies are
`String`s, Python exceptions are modelled with explicit `PyErr` values,
and the Python string primitives used by the source (`str.find`,
`str.replace`, slicing with negative indices, `str.lower`, `in`) are
re-implemented on `List Char` with Python's semantics.
-/

namespace SeiyuuSearch

/-! ## Python string primitives -/

/-- Auxiliary scan for `pyFind`: first index (counting from `i`) at which
`sub` is a prefix of the remaining characters. -/
def findAux (sub : List Char) : List Char → Nat → Option Nat
  | [], i => if sub.isEmpty then some i else none
  | c :: rest, i =>
    if sub.isPrefixOf (c :: rest) then some i else findAux sub rest (i + 1)

/-- Python `s.find(sub, start)`: absolute index of the first occurrence of
`sub` at or after `start`, or `-1` when there is none. -/
def pyFind (s sub : List Char) (start : Nat) : Int :=
  match findAux sub (s.drop start) 0 with
  | some j => ((start + j : Nat) : Int)
  | none => -1

/-- Python slice `s[i:e]` for a non-negative start `i` and a possibly
negative end `e` (a negative end counts from the end of the string and is
clamped at 0, as in Python). -/
def pySlice (s : List Char) (i : Nat) (e : Int) : List Char :=
  let e2 : Int := if e < 0 then (s.length : Int) + e else e
  (s.take e2.toNat).drop i

/-- One fuel-indexed pass of Python `s.replace(old, new)`: left-to-right,
non-overlapping.  The fuel is the length of `s`, which each step consumes. -/
def pyReplaceAux (old new : List Char) : Nat → List Char → List Char
  | 0, s => s
  | fuel + 1, s =>
    match s with
    | [] => []
    | c :: rest =>
      if !old.isEmpty && old.isPrefixOf (c :: rest) then
        new ++ pyReplaceAux old new fuel ((c :: rest).drop old.length)
      else
        c :: pyReplaceAux old new fuel rest

/-- Python `s.replace(old, new)` (all occurrences, left to right). -/
def pyReplace (s old new : List Char) : List Char :=
  pyReplaceAux old new s.length s

/-- ASCII lower-casing of one character, as Python `str.lower` acts on the
ASCII range (the only characters appearing in content types). -/
def lowerChar (c : Char) : Char :=
  if 'A' ≤ c ∧ c ≤ 'Z' then Char.ofNat (c.toNat + 32) else c

/-- Python `s.lower()` restricted to ASCII. -/
def pyLower (cs : List Char) : List Char := cs.map lowerChar

/-! ## Fetcher: `headers`, `simple_get`, `is_good_response` -/

/-- Model of the User-Agent inside `requests.utils.default_headers()` —
the identification string the `requests` library sends by default. -/
def requestsDefaultUserAgent : String := "python-requests/2.23.0"

/-- Model of `requests.utils.default_headers()` as an association list. -/
def requestsDefaultHeaders : List (String × String) :=
  [("User-Agent", requestsDefaultUserAgent),
   ("Accept-Encoding", "gzip, deflate"),
   ("Accept", "*/*"),
   ("Connection", "keep-alive")]

/-- The browser-like User-Agent string from line 21 of the source. -/
def customUserAgent : String :=
  "Mozilla/5.0 (X11; Ubuntu; Linux x86_64; rv:52.0) Gecko/20100101 Firefox/52.0"

/-- Python `dict` insertion with overwrite: an existing key keeps its
position and gets the new value, a new key is appended. -/
def pyDictInsert (d : List (String × String)) (k v : String) :
    List (String × String) :=
  if k ∈ d.map Prod.fst then
    d.map (fun kv => if kv.1 = k then (k, v) else kv)
  else
    d ++ [(k, v)]

/-- The module-level `headers` dict of the source: the default headers
updated with the custom User-Agent (lines 20-21). -/
def headers : List (String × String) :=
  pyDictInsert requestsDefaultHeaders "User-Agent" customUserAgent

/-- The headers actually attached to the GET issued by `simple_get`
(line 34): `requests.get(url, stream=True)` is called WITHOUT a
`headers` argument, so the request carries the library's default headers;
the module-level `headers` dict is never passed to it. -/
def simpleGetRequestHeaders : List (String × String) := requestsDefaultHeaders

/-- The outcome of the underlying transport call inside `simple_get`:
either a `RequestException` was raised, or a response arrived carrying a
declared content type and a body. -/
inductive TransportResult where
  | exn
  | resp (contentType : String) (content : String)
deriving DecidableEq

/-- `is_good_response` (lines 43-49): the lower-cased `Content-Type`
header must contain the substring of four letters h, t, m, l
(`content_type.find(...) > -1`). -/
def is_good_response (contentType : String) : Bool :=
  pyFind (pyLower contentType.toList) "html".toList 0 > -1

/-- `simple_get` (lines 27-41): return the body when the transport call
succeeds and the response passes `is_good_response`, `None` otherwise
(a `RequestException` is caught, logged and turned into `None`). -/
def simple_get : TransportResult → Option String
  | .exn => none
  | .resp ct body => if is_good_response ct then some body else none

/-! ## The eval dialect: values, objects, and `list(eval(...))`

After the token substitutions, the text handed to Python `eval` is a
comma-separated sequence of dict literals whose keys are string literals
and whose values are atoms (strings, integers, `True`, `False`, `None`).
`list(eval(t))` on a tuple of two or more dicts yields the list of dicts;
on a SINGLE dict it yields the list of its KEYS (strings). -/

/-- An atomic Python value occurring in the embedded catalog data. -/
inductive PyVal where
  | str (s : String)
  | int (n : Int)
  | bool (b : Bool)
  | pynone
deriving DecidableEq

/-- A Python dict literal: its key/value pairs in literal order. -/
abbrev PyObj := List (String × PyVal)

/-- One element of `list(eval(cleaned))`: a dict when the cleaned text was
a tuple of dicts, or a key string when it was a single dict (Python
`list` of a dict iterates its keys). -/
inductive PyItem where
  | obj (fields : PyObj)
  | key (s : String)
deriving DecidableEq

/-- Whitespace test for the eval dialect. -/
def isWsChar (c : Char) : Bool :=
  c = ' ' || c = '\n' || c = '\t' || c = '\r'

/-- Skip whitespace. -/
def skipWs (cs : List Char) : List Char := cs.dropWhile isWsChar

/-- Parse a double-quoted string literal.  Backslashes have been deleted
by the substitution pass, so there are no escapes: the literal runs to
the next double quote. -/
def parseStringLit : List Char → Option (String × List Char)
  | '\"' :: rest =>
    match rest.dropWhile (fun c => c ≠ '\"') with
    | '\"' :: rest2 => some (String.mk (rest.takeWhile (fun c => c ≠ '\"')), rest2)
    | _ => none
  | _ => none

/-- Numeric value of a digit run. -/
def digitsVal (ds : List Char) : Nat :=
  ds.foldl (fun a c => a * 10 + (c.toNat - 48)) 0

/-- Parse a run of decimal digits. -/
def parseDigits (cs : List Char) : Option (Nat × List Char) :=
  let ds := cs.takeWhile Char.isDigit
  if ds.isEmpty then none else some (digitsVal ds, cs.dropWhile Char.isDigit)

/-- Parse an optionally negated integer literal. -/
def parseIntLit : List Char → Option (Int × List Char)
  | '-' :: rest => (parseDigits rest).map (fun p => (-(p.1 : Int), p.2))
  | cs => (parseDigits cs).map (fun p => ((p.1 : Int), p.2))

/-- Parse one atomic value of the dialect. -/
def parseAtom (cs : List Char) : Option (PyVal × List Char) :=
  if "True".toList.isPrefixOf cs then some (.bool true, cs.drop 4)
  else if "False".toList.isPrefixOf cs then some (.bool false, cs.drop 5)
  else if "None".toList.isPrefixOf cs then some (.pynone, cs.drop 4)
  else
    match cs with
    | '\"' :: _ => (parseStringLit cs).map (fun p => (PyVal.str p.1, p.2))
    | '-' :: _ => (parseIntLit cs).map (fun p => (PyVal.int p.1, p.2))
    | c :: _ =>
      if c.isDigit then (parseIntLit cs).map (fun p => (PyVal.int p.1, p.2))
      else none
    | [] => none

/-- Parse the key/value pairs of a dict literal after its opening brace,
consuming the closing brace.  Fuel decreases on each pair; every pair
consumes several characters, so length-of-input fuel suffices. -/
def parseKVs : Nat → List Char → PyObj → Option (PyObj × List Char)
  | 0, _, _ => none
  | fuel + 1, cs, acc =>
    match parseStringLit (skipWs cs) with
    | none => none
    | some (k, cs1) =>
      match skipWs cs1 with
      | ':' :: cs2 =>
        match parseAtom (skipWs cs2) with
        | none => none
        | some (v, cs3) =>
          match skipWs cs3 with
          | ',' :: cs4 => parseKVs fuel cs4 (acc ++ [(k, v)])
          | '\x7d' :: cs4 => some (acc ++ [(k, v)], cs4)
          | _ => none
      | _ => none

/-- Parse one dict literal. -/
def parseObj (fuel : Nat) (cs : List Char) : Option (PyObj × List Char) :=
  match skipWs cs with
  | '\x7b' :: cs1 =>
    match skipWs cs1 with
    | '\x7d' :: cs2 => some ([], cs2)
    | _ => parseKVs fuel cs1 []
  | _ => none

/-- Parse a comma-separated sequence of dict literals covering the whole
input. -/
def parseObjs : Nat → List Char → List PyObj → Option (List PyObj)
  | 0, _, _ => none
  | fuel + 1, cs, acc =>
    match parseObj fuel cs with
    | none => none
    | some (d, rest) =>
      match skipWs rest with
      | [] => some (acc ++ [d])
      | ',' :: rest2 => parseObjs fuel rest2 (acc ++ [d])
      | _ => none

/-- Model of `list(eval(cleaned))` on the dialect: a tuple of two or more
dicts gives the dicts; a single dict gives its keys; anything else raises
(modelled as `none`; evaluable forms outside the dialect that would only
raise later, in the comprehension, are folded into the same failure). -/
def pyEvalList (cs : List Char) : Option (List PyItem) :=
  match parseObjs (cs.length + 1) cs [] with
  | none => none
  | some [d] => some (d.map (fun kv => PyItem.key kv.1))
  | some ds => some (ds.map PyItem.obj)

/-! ## Data model: `Anime`, `AnimeList` -/

/-- `Anime` (lines 171-200).  The name is whatever value the source dict
held under `anime_title` (the constructor does not force a string); the
url is always a string because it is built by concatenation. -/
structure Anime where
  name : PyVal
  url : String
deriving DecidableEq

/-- The attributes of an `AnimeList` object (lines 55-92).  The back
reference to no other object exists; `anime_details` holds the raw items
of `list(eval(...))`. -/
structure AnimeListState where
  username : String
  url : String
  anime : List Anime
  anime_details : List PyItem
  is_valid : Bool
deriving DecidableEq

/-- A Python exception escaping an operation. -/
inductive PyErr where
  | typeError
  | keyError
  | indexError
  | syntaxError
deriving DecidableEq

/-- The observable outcome of a stateful Python operation: the object
state it left behind, and the exception that escaped, if any. -/
structure PyOutcome (α : Type) where
  state : α
  exn : Option PyErr
deriving DecidableEq

/-- `AnimeList.__init__` before `load_anime_list` runs (lines 75-91). -/
def animeListInit (username : String) : AnimeListState :=
  { username := username
  , url := "https://myanimelist.net/animelist/" ++ username
  , anime := []
  , anime_details := []
  , is_valid := false }

/-- Python dict lookup on a dict literal: the LAST binding of a repeated
key wins, as in a Python dict built from a literal. -/
def pyLookup (k : String) (d : PyObj) : Option PyVal :=
  d.reverse.lookup k

/-- One step of the comprehension at lines 124-125:
`Anime(A['anime_title'], 'https://myanimelist.net' + A['anime_url'])`.
A missing key raises `KeyError`; a non-string `anime_url` (or a key
string, when `eval` produced a single dict) raises `TypeError`; both are
modelled as `none`. -/
def mkAnime : PyItem → Option Anime
  | .obj d =>
    match pyLookup "anime_title" d, pyLookup "anime_url" d with
    | some t, some (.str u) => some ⟨t, "https://myanimelist.net" ++ u⟩
    | _, _ => none
  | .key _ => none

/-- The whole comprehension: aborts at the first bad item, in which case
`self.anime` is never assigned. -/
def mkAnimes : List PyItem → Option (List Anime)
  | [] => some []
  | d :: ds =>
    match mkAnime d, mkAnimes ds with
    | some a, some rest => some (a :: rest)
    | _, _ => none

/-- The substitution table `r` of lines 115-119, in source order. -/
def replacements : List (String × String) :=
  [("&quot;", "\""), ("null", "None"), ("true", "True"),
   ("false", "False"), ("\\", "")]

/-- The replacement loop of lines 120-121, applied to the brace-wrapped
blob. -/
def applyReplacements (cs : List Char) : List Char :=
  replacements.foldl (fun s p => pyReplace s p.1.toList p.2.toList) cs

/-- Lines 110-121 of `load_anime_list`: locate the blob after the
`data-items` marker (`find` returning `-1` still yields start offset 13),
slice up to one before the first `]` (Python negative-end slice when the
scan fails), wrap in braces, and apply the substitutions. -/
def cleanedBlob (page : String) : List Char :=
  let s0 := page.toList
  let i : Nat := (pyFind s0 "data-items".toList 0 + 14).toNat
  let j : Int := pyFind s0 "]".toList i
  applyReplacements ('\x7b' :: pySlice s0 i (j - 1) ++ ['\x7d'])

/-- `AnimeList.load_anime_list` (lines 94-126), given the result of
`simple_get(self.url)`.  A failed fetch returns early; a failed `eval`
raises out of the method with the object untouched; a failed
comprehension raises with `anime_details` already assigned but `anime`
still empty; otherwise all fields are set and `is_valid` becomes true. -/
def load_anime_list (st : AnimeListState) (fetched : Option String) :
    PyOutcome AnimeListState :=
  match fetched with
  | none => ⟨st, none⟩
  | some page =>
    match pyEvalList (cleanedBlob page) with
    | none => ⟨st, some .syntaxError⟩
    | some ds =>
      match mkAnimes ds with
      | none => ⟨{ st with anime_details := ds }, some .typeError⟩
      | some animes =>
        ⟨{ st with anime_details := ds, anime := animes, is_valid := true },
         none⟩

/-! ## Performer pages: `Character`, `Seiyuu.load_seiyuu` -/

/-- `Character` (lines 128-169).  The `seiyuu` back-reference is omitted
(it is a pointer to the owning object and carries no data of its own). -/
structure Character where
  name : String
  role : String
  url : String
  anime : List Anime
deriving DecidableEq

/-- The five strings extracted from one row of the roles table
(lines 244-248): anime link text, anime href, character link text,
character role, character href. -/
structure RoleRow where
  a_name : String
  a_url : String
  c_name : String
  c_role : String
  c_url : String
deriving DecidableEq

/-- The `Character` appended for a row whose character url is new
(lines 250-252): constructed, appended, and its `anime` list immediately
given the row's anime entry. -/
def newCharacter (r : RoleRow) : Character :=
  { name := r.c_name
  , role := r.c_role
  , url := r.c_url
  , anime := [⟨PyVal.str r.a_name, r.a_url⟩] }

/-- The `else` branch of lines 253-258: walk the characters, and at the
FIRST one whose url matches the row's character url, append the row's
anime entry unless its url is already present, then `break` (later
characters are left untouched). -/
def appendAnimeFirst (r : RoleRow) : List Character → List Character
  | [] => []
  | c :: cs =>
    if c.url = r.c_url then
      (if r.a_url ∈ c.anime.map Anime.url then c
       else { c with anime := c.anime ++ [⟨PyVal.str r.a_name, r.a_url⟩] }) :: cs
    else
      c :: appendAnimeFirst r cs

/-- The body of the row loop (lines 249-258): a new character url appends
a fresh `Character`, a known one updates the first match in place. -/
def addRoleRow (chars : List Character) (r : RoleRow) : List Character :=
  if r.c_url ∉ chars.map Character.url then
    chars ++ [newCharacter r]
  else
    appendAnimeFirst r chars

/-- The whole row loop of `load_seiyuu`, starting from the empty
`self.characters` list. -/
def processRows (rows : List RoleRow) : List Character :=
  rows.foldl addRoleRow []

/-- `Seiyuu.load_seiyuu` (lines 231-258) over a fetched page.  A failed
fetch hands `None` to `BeautifulSoup`, which raises `TypeError`; the page
itself is modelled as the row tuples of each `table` element, and
`soup.find_all('table')[1]` raises `IndexError` when there is no second
table.  (The per-cell extraction of lines 244-248, which can itself raise
on a malformed row, is abstracted into the pre-extracted `RoleRow`s.) -/
def load_seiyuu : Option (List (List RoleRow)) → Except PyErr (List Character)
  | none => .error .typeError
  | some tables =>
    match tables[1]? with
    | none => .error .indexError
    | some rows => .ok (processRows rows)

/-! ## Search pages: `search_seiyuu` -/

/-- An anchor element: its text and its `href` attribute. -/
structure SearchLink where
  text : String
  href : String
deriving DecidableEq

/-- One `tr` of the search results table: its anchors in document
order. -/
structure SearchRow where
  links : List SearchLink
deriving DecidableEq

/-- The parts of a search results page that `search_seiyuu` reads: the
page title, the first `h1` text and the single-result profile href (used
by the short-circuit branch), and the rows of the first table. -/
structure SearchPage where
  title : String
  h1 : String
  singleResultHref : String
  rows : List SearchRow
deriving DecidableEq

/-- The fixed results-listing title compared at line 281. -/
def searchPeopleTitle : String := "Search People - MyAnimeList.net\n"

/-- One iteration of the row loop at lines 288-289:
`seiyuu[row.find_all('a')[1].string] = prefix + row.find_all('a')[0].href`.
A row with fewer than two anchors raises `IndexError`. -/
def addSearchRow (acc : Except PyErr (List (String × String)))
    (row : SearchRow) : Except PyErr (List (String × String)) :=
  match acc with
  | .error e => .error e
  | .ok d =>
    match row.links[0]?, row.links[1]? with
    | some l0, some l1 =>
      .ok (pyDictInsert d l1.text ("https://myanimelist.net" ++ l0.href))
    | _, _ => .error .indexError

/-- `search_seiyuu` (lines 260-290) over a fetched page.  A failed fetch
hands `None` to `BeautifulSoup`, raising `TypeError`.  A title other than
the results-listing title means a single-profile redirect and returns the
singleton mapping; a single row with no anchor returns the empty mapping;
otherwise every row contributes one binding (later duplicate names
overwrite earlier ones). -/
def search_seiyuu : Option SearchPage → Except PyErr (List (String × String))
  | none => .error .typeError
  | some p =>
    if p.title ≠ searchPeopleTitle then
      .ok [(p.h1, p.singleResultHref)]
    else if p.rows.length = 1 ∧ (p.rows.headD ⟨[]⟩).links = [] then
      .ok []
    else
      p.rows.foldl addSearchRow (.ok [])

/-! ## The intersection filter of `Main.load_char_list` -/

/-- The keep test at line 493: the character is kept when no anime list
is loaded, or when some url of its `anime` list occurs among the urls of
the loaded list's `anime`. -/
def keepCharacter (animeListUrls : List String) (c : Character) : Bool :=
  (c.anime.map Anime.url).any (fun item => animeListUrls.contains item)

/-- The filtering step of `Main.load_char_list` (lines 491-494): the
characters that survive the `continue`, in their original order, each
passed through unchanged. -/
def filterCharacters (animeList : Option (List Anime))
    (chars : List Character) : List Character :=
  match animeList with
  | none => chars
  | some al => chars.filter (keepCharacter (al.map Anime.url))

/-! ## Concrete catalog pages used in the theorems below -/

/-- A page with NO `data-items` marker and NO `]` at all, crafted so that
the fallback offsets of `load_anime_list` (start 13, end `len - 2`) still
isolate well-formed object text. -/
def c4page : String :=
  "zzzzzzzzzzzzz\"anime_title\":\"A\",\"anime_url\":\"/a\"\x7d,\x7b\"anime_title\":\"B\",\"anime_url\":\"/b\"XY"

/-- A page on which the cleaned blob (`\x7b@@\x7d`) fails to parse. -/
def c4FailPage : String := "aaaaaaaaaaaaa@@@@"

/-- A well-formed catalog page whose embedded blob repeats the same
`anime_url` in two entries. -/
def c7page : String :=
  "<div data-items=\"[\x7b&quot;anime_title&quot;:&quot;A&quot;,&quot;anime_url&quot;:&quot;/anime/1&quot;\x7d,\x7b&quot;anime_title&quot;:&quot;B&quot;,&quot;anime_url&quot;:&quot;/anime/1&quot;\x7d]\"></div>"

/-- A well-formed catalog page with two entries and distinct urls. -/
def c7okPage : String :=
  "<div data-items=\"[\x7b&quot;anime_title&quot;:&quot;A&quot;,&quot;anime_url&quot;:&quot;/anime/1&quot;\x7d,\x7b&quot;anime_title&quot;:&quot;B&quot;,&quot;anime_url&quot;:&quot;/anime/2&quot;\x7d]\"></div>"

/-- A well-formed catalog page whose embedded titles contain the raw text
`nullpo` and `a\b` (one backslash). -/
def c10page : String :=
  "<div data-items=\"[\x7b&quot;anime_title&quot;:&quot;nullpo&quot;,&quot;anime_url&quot;:&quot;/anime/1&quot;\x7d,\x7b&quot;anime_title&quot;:&quot;a\\b&quot;,&quot;anime_url&quot;:&quot;/anime/2&quot;\x7d]\"></div>"

/-! ## Claim theorems -/

/-- C3 (code bug): `simple_get` calls `requests.get(url, stream=True)`
without a `headers` argument, so the GET it issues carries the requests
library's default User-Agent, not the browser-like one the module-level
`headers` dict was updated with; that dict is built and never attached. -/
theorem simple_get_sends_default_user_agent :
    List.lookup "User-Agent" simpleGetRequestHeaders
        = some requestsDefaultUserAgent
    ∧ List.lookup "User-Agent" headers = some customUserAgent
    ∧ (requestsDefaultUserAgent == customUserAgent) = false := by
  refine ⟨rfl, rfl, by decide⟩

/-- C5: `simple_get` returns the body iff the transport call succeeded
and `is_good_response` accepts the declared content type — the test being
that the lower-cased content type contains the HTML marker substring;
every other outcome (a raised `RequestException`, or a passing transport
call with `application/json` or an XML-only content type) is the single
failure value `None`; `application/xhtml+xml` passes the gate. -/
theorem simple_get_content_gate :
    simple_get TransportResult.exn = none
    ∧ (∀ ct body : String,
        simple_get (TransportResult.resp ct body) = some body
          ↔ is_good_response ct = true)
    ∧ (∀ ct body : String,
        is_good_response ct = false →
        simple_get (TransportResult.resp ct body) = none)
    ∧ is_good_response "application/json" = false
    ∧ is_good_response "text/xml" = false
    ∧ is_good_response "text/html; charset=UTF-8" = true
    ∧ is_good_response "application/xhtml+xml" = true := by
  refine ⟨rfl, ?_, ?_, by decide, by decide, by decide, by decide⟩
  · intro ct body
    cases h : is_good_response ct <;> simp [simple_get, h]
  · intro ct body h
    simp [simple_get, h]

/-- Witness for `simple_get_content_gate`: a successful transport call
carrying `application/json` is rejected. -/
theorem simple_get_content_gate_witness :
    simple_get (TransportResult.resp "application/json" "x") = none :=
  simple_get_content_gate.2.2.1 "application/json" "x" (by decide)

/-- C9: a failed fetch (the `None` result of `simple_get`) makes
`search_seiyuu` and `Seiyuu.load_seiyuu` raise (the `None` is handed
straight to `BeautifulSoup`), while `AnimeList.load_anime_list` returns
early without raising, leaving `is_valid` false and `anime` empty. -/
theorem fetch_failure_propagation :
    search_seiyuu none = Except.error PyErr.typeError
    ∧ load_seiyuu none = Except.error PyErr.typeError
    ∧ ∀ u : String,
        (load_anime_list (animeListInit u) none).exn = none
        ∧ (load_anime_list (animeListInit u) none).state.is_valid = false
        ∧ (load_anime_list (animeListInit u) none).state.anime = [] :=
  ⟨rfl, rfl, fun _ => ⟨rfl, rfl, rfl⟩⟩

/-- C10: the substitution pass rewrites the whole blob, titles included:
on `c10page`, whose source data holds the titles `nullpo` and `a\b`, the
parsed entries carry the titles `Nonepo` (the `null` inside was replaced)
and `ab` (the backslash was deleted) — both differ from the source. -/
theorem substitutions_rewrite_titles :
    pyFind c10page.toList "nullpo".toList 0 > -1
    ∧ pyFind c10page.toList "a\\b".toList 0 > -1
    ∧ (load_anime_list (animeListInit "user") (some c10page)).state.is_valid
        = true
    ∧ (load_anime_list (animeListInit "user") (some c10page)).state.anime.map
        Anime.name = [PyVal.str "Nonepo", PyVal.str "ab"]
    ∧ (("Nonepo" : String) == "nullpo") = false
    ∧ (("ab" : String) == "a\\b") = false := by
  refine ⟨by decide, by decide, by decide, by decide, by decide, by decide⟩

/-- Counterexample to C4 as stated: on `c4page` the marker token
`data-items` is absent and the scan for the closing `]` fails, yet the
parse succeeds — `is_valid` ends up true with two entries, because the
failed `find`s fall back to offset 13 and a negative-end slice instead of
aborting. -/
theorem marker_absent_parse_can_succeed :
    pyFind c4page.toList "data-items".toList 0 = -1
    ∧ pyFind c4page.toList "]".toList 13 = -1
    ∧ (load_anime_list (animeListInit "user") (some c4page)).state.is_valid
        = true
    ∧ (load_anime_list (animeListInit "user") (some c4page)).exn = none
    ∧ (load_anime_list (animeListInit "user") (some c4page)).state.anime.length
        = 2 := by
  refine ⟨by decide, by decide, by decide, by decide, by decide⟩

/-- Counterexample to C7 as stated: on `c7page`, whose blob repeats
`/anime/1`, the parse succeeds and the resulting entry urls are NOT
pairwise distinct — the parser never de-duplicates. -/
theorem catalog_repeated_url_not_nodup :
    (load_anime_list (animeListInit "user") (some c7page)).state.is_valid
        = true
    ∧ (load_anime_list (animeListInit "user") (some c7page)).state.anime.map
        Anime.url
        = ["https://myanimelist.net/anime/1", "https://myanimelist.net/anime/1"]
    ∧ decide ((load_anime_list (animeListInit "user")
          (some c7page)).state.anime.map Anime.url).Nodup = false := by
  refine ⟨by decide, by decide, by decide⟩

/-- C1: with a loaded catalog list, the filtering step of
`load_char_list` keeps a character iff some url of its `anime` list also
occurs among the urls of the catalog list's entries (set intersection by
url), and the result is a sublist of the input — the original order, with
each kept character passed through unchanged, `anime` untrimmed. -/
theorem filter_keeps_iff_intersects_and_stable :
    ∀ (al : List Anime) (chars : List Character),
      (∀ c : Character,
        c ∈ filterCharacters (some al) chars ↔
          c ∈ chars ∧ ∃ u, u ∈ c.anime.map Anime.url ∧ u ∈ al.map Anime.url)
      ∧ (filterCharacters (some al) chars).Sublist chars := by
  intro al chars
  constructor
  · intro c
    simp [filterCharacters, keepCharacter, List.mem_filter, List.any_eq_true]
  · exact List.filter_sublist _

/-- A character url not seen before lies outside `pre`; the matched
character is updated in place by `appendAnimeFirst` and everything else
is left alone. -/
lemma appendAnimeFirst_split (r : RoleRow) :
    ∀ (pre : List Character) (c : Character) (post : List Character),
      c.url = r.c_url → r.c_url ∉ pre.map Character.url →
      appendAnimeFirst r (pre ++ c :: post) =
        pre ++ (if r.a_url ∈ c.anime.map Anime.url then c
                else { c with
                       anime := c.anime ++ [⟨PyVal.str r.a_name, r.a_url⟩] })
          :: post := by
  intro pre
  induction pre with
  | nil =>
    intro c post hc _
    simp [appendAnimeFirst, hc]
  | cons p ps ih =>
    intro c post hc hpre
    have hp : ¬ (p.url = r.c_url) := fun he => hpre (by simp [← he])
    have hps : r.c_url ∉ ps.map Character.url := fun h => hpre (by simp [h])
    simp [appendAnimeFirst, hp, ih c post hc hps]

/-- C2: the row-by-row linking of `load_seiyuu`.  A new character url
appends a fresh `Character` whose `anime` is the row's single entry; a
known character url updates the matched character, appending the row's
entry exactly when its url is absent; and two rows sharing a character
url but with different anime urls produce one character whose `anime` has
both entries, in row order. -/
theorem linking_row_algorithm :
    (∀ (chars : List Character) (r : RoleRow),
        r.c_url ∉ chars.map Character.url →
        addRoleRow chars r = chars ++ [newCharacter r])
    ∧ (∀ (pre post : List Character) (c : Character) (r : RoleRow),
        c.url = r.c_url → r.c_url ∉ pre.map Character.url →
        addRoleRow (pre ++ c :: post) r =
          pre ++ (if r.a_url ∈ c.anime.map Anime.url then c
                  else { c with
                         anime := c.anime ++ [⟨PyVal.str r.a_name, r.a_url⟩] })
            :: post)
    ∧ (∀ r1 r2 : RoleRow, r1.c_url = r2.c_url → r1.a_url ≠ r2.a_url →
        processRows [r1, r2] =
          [{ name := r1.c_name, role := r1.c_role, url := r1.c_url,
             anime := [⟨PyVal.str r1.a_name, r1.a_url⟩,
                       ⟨PyVal.str r2.a_name, r2.a_url⟩] }]) := by
  refine ⟨?_, ?_, ?_⟩
  · intro chars r h
    simp [addRoleRow, h]
  · intro pre post c r hc hpre
    have hmem : r.c_url ∈ (pre ++ c :: post).map Character.url := by
      simp [hc]
    rw [addRoleRow, if_neg (not_not_intro hmem)]
    exact appendAnimeFirst_split r pre c post hc hpre
  · intro r1 r2 h1 h2
    have h2s : r2.a_url ≠ r1.a_url := fun h => h2 h.symm
    simp [processRows, addRoleRow, appendAnimeFirst, newCharacter, h1, h2s]

/-- Witness for `linking_row_algorithm`: its three parts applied at
concrete rows. -/
theorem linking_row_algorithm_witness :
    addRoleRow [] ⟨"a1", "ua1", "n", "Main", "uc"⟩
        = [newCharacter ⟨"a1", "ua1", "n", "Main", "uc"⟩]
    ∧ addRoleRow ([] ++ newCharacter ⟨"a1", "ua1", "n", "Main", "uc"⟩ :: [])
          ⟨"a2", "ua2", "n", "Main", "uc"⟩
        = [] ++ (if ("ua2" : String) ∈
              (newCharacter ⟨"a1", "ua1", "n", "Main", "uc"⟩).anime.map Anime.url
            then newCharacter ⟨"a1", "ua1", "n", "Main", "uc"⟩
            else { newCharacter ⟨"a1", "ua1", "n", "Main", "uc"⟩ with
                   anime := (newCharacter
                       ⟨"a1", "ua1", "n", "Main", "uc"⟩).anime
                     ++ [⟨PyVal.str "a2", "ua2"⟩] }) :: []
    ∧ processRows [⟨"a1", "ua1", "n", "Main", "uc"⟩,
                   ⟨"a2", "ua2", "n", "Main", "uc"⟩]
        = [{ name := "n", role := "Main", url := "uc",
             anime := [⟨PyVal.str "a1", "ua1"⟩, ⟨PyVal.str "a2", "ua2"⟩] }] :=
  ⟨linking_row_algorithm.1 [] _ (by simp),
   linking_row_algorithm.2.1 [] [] _ _ rfl (by simp),
   linking_row_algorithm.2.2 _ _ rfl (by decide)⟩

/-- The uniqueness invariant of C6: pairwise-distinct character urls, and
pairwise-distinct anime urls inside every character. -/
def charInvariant (chars : List Character) : Prop :=
  (chars.map Character.url).Nodup
  ∧ ∀ c ∈ chars, (c.anime.map Anime.url).Nodup

/-- `appendAnimeFirst` never changes the character urls. -/
lemma appendAnimeFirst_map_url (r : RoleRow) :
    ∀ chars : List Character,
      (appendAnimeFirst r chars).map Character.url
        = chars.map Character.url := by
  intro chars
  induction chars with
  | nil => simp [appendAnimeFirst]
  | cons c cs ih =>
    by_cases h : c.url = r.c_url
    · simp [appendAnimeFirst, h]
      split <;> simp [h]
    · simp [appendAnimeFirst, h, ih]

/-- `appendAnimeFirst` preserves distinctness of the anime urls inside
every character: it only ever appends an anime url that was absent. -/
lemma appendAnimeFirst_anime_nodup (r : RoleRow) :
    ∀ chars : List Character,
      (∀ c ∈ chars, (c.anime.map Anime.url).Nodup) →
      ∀ c ∈ appendAnimeFirst r chars, (c.anime.map Anime.url).Nodup := by
  intro chars
  induction chars with
  | nil => simp [appendAnimeFirst]
  | cons c cs ih =>
    intro h d hd
    by_cases hc : c.url = r.c_url
    · rw [appendAnimeFirst, if_pos hc] at hd
      rcases List.mem_cons.1 hd with h1 | h1
      · subst h1
        by_cases ha : r.a_url ∈ c.anime.map Anime.url
        · simp only [if_pos ha]
          exact h c (List.mem_cons_self c cs)
        · simp only [if_neg ha]
          have hn := h c (List.mem_cons_self c cs)
          simp [List.nodup_middle, hn]
          simpa using ha
      · exact h d (List.mem_cons_of_mem c h1)
    · rw [appendAnimeFirst, if_neg hc] at hd
      rcases List.mem_cons.1 hd with h1 | h1
      · subst h1; exact h d (List.mem_cons_self d cs)
      · exact ih (fun x hx => h x (List.mem_cons_of_mem c hx)) d h1

/-- One row step preserves the uniqueness invariant. -/
lemma addRoleRow_inv (chars : List Character) (r : RoleRow) :
    charInvariant chars → charInvariant (addRoleRow chars r) := by
  intro ⟨h1, h2⟩
  by_cases hmem : r.c_url ∈ chars.map Character.url
  · rw [addRoleRow, if_neg (not_not_intro hmem)]
    exact ⟨by rw [appendAnimeFirst_map_url]; exact h1,
           appendAnimeFirst_anime_nodup r chars h2⟩
  · rw [addRoleRow, if_pos hmem]
    constructor
    · simp [List.nodup_middle, h1]
      simpa [newCharacter] using hmem
    · intro c hc
      rcases List.mem_append.1 hc with h3 | h3
      · exact h2 c h3
      · simp at h3
        subst h3
        simp [newCharacter]

/-- The invariant holds after any number of row steps from any state
satisfying it — i.e. at every intermediate point of the parse. -/
lemma foldl_addRoleRow_inv :
    ∀ (rows : List RoleRow) (chars : List Character),
      charInvariant chars → charInvariant (rows.foldl addRoleRow chars) := by
  intro rows
  induction rows with
  | nil => intro chars h; exact h
  | cons r rs ih => intro chars h; exact ih _ (addRoleRow_inv chars r h)

/-- C6: every step of the `load_seiyuu` row loop preserves the
uniqueness invariant (distinct character urls; distinct anime urls inside
each character), and it therefore holds for the characters produced from
any row sequence — so at every point during and after the parse. -/
theorem load_seiyuu_uniqueness :
    (∀ (chars : List Character) (r : RoleRow),
        charInvariant chars → charInvariant (addRoleRow chars r))
    ∧ ∀ rows : List RoleRow, charInvariant (processRows rows) := by
  refine ⟨addRoleRow_inv, fun rows => ?_⟩
  exact foldl_addRoleRow_inv rows [] ⟨List.nodup_nil, by simp⟩

/-- Witness for `load_seiyuu_uniqueness`: one step from the empty state
at a concrete row. -/
theorem load_seiyuu_uniqueness_witness :
    charInvariant (addRoleRow [] ⟨"a1", "ua1", "n", "Main", "uc"⟩) :=
  load_seiyuu_uniqueness.1 [] ⟨"a1", "ua1", "n", "Main", "uc"⟩
    ⟨List.nodup_nil, by simp⟩

/-- C4 (amended): the catalog parse leaves no partial result — for every
fetched page, `is_valid` stays false exactly when an exception escapes
(`eval` failing on the cleaned text, or the comprehension failing on its
objects), and in that case `anime` is empty.  (Marker absence or a failed
closing-delimiter scan need not fail: see
`marker_absent_parse_can_succeed`.) -/
theorem load_anime_list_failure_total :
    ∀ (u page : String),
      ((load_anime_list (animeListInit u) (some page)).state.is_valid = false
        ↔ (load_anime_list (animeListInit u) (some page)).exn ≠ none)
      ∧ ((load_anime_list (animeListInit u) (some page)).exn ≠ none →
          (load_anime_list (animeListInit u) (some page)).state.anime = []) := by
  intro u page
  simp only [load_anime_list]
  cases h1 : pyEvalList (cleanedBlob page) with
  | none => simp [h1, animeListInit]
  | some ds =>
    cases h2 : mkAnimes ds with
    | none => simp [h1, h2, animeListInit]
    | some animes => simp [h1, h2]

/-- Witness for `load_anime_list_failure_total`, at a page whose
cleaned blob fails to parse. -/
theorem load_anime_list_failure_total_witness :
    (load_anime_list (animeListInit "user") (some c4FailPage)).state.anime = []
    ∧ ((load_anime_list (animeListInit "user")
          (some c4FailPage)).state.is_valid = false
        ↔ (load_anime_list (animeListInit "user")
            (some c4FailPage)).exn ≠ none) :=
  ⟨(load_anime_list_failure_total "user" c4FailPage).2 (by decide),
   (load_anime_list_failure_total "user" c4FailPage).1⟩

/-- The prefixed url a blob item contributes, when it is a dict holding a
string `anime_url`. -/
def blobUrlOf : PyItem → Option String
  | .obj f =>
    match pyLookup "anime_url" f with
    | some (.str u) => some ("https://myanimelist.net" ++ u)
    | _ => none
  | .key _ => none

/-- The prefixed urls of the blob items, in blob order. -/
def blobUrls (ds : List PyItem) : List String :=
  ds.filterMap blobUrlOf

/-- Each successfully converted item keeps its blob url. -/
lemma mkAnime_url (d : PyItem) (a : Anime) (h : mkAnime d = some a) :
    blobUrlOf d = some a.url := by
  cases d with
  | key s => simp [mkAnime] at h
  | obj f =>
    simp only [mkAnime] at h
    cases ht : pyLookup "anime_title" f with
    | none => rw [ht] at h; simp at h
    | some t =>
      cases hu : pyLookup "anime_url" f with
      | none => rw [ht, hu] at h; simp at h
      | some v =>
        rw [ht, hu] at h
        cases v with
        | str s =>
          simp at h
          simp [blobUrlOf, hu, ← h]
        | int n => simp at h
        | bool b => simp at h
        | pynone => simp at h

/-- A successful comprehension reproduces the blob urls one for one, in
order. -/
lemma mkAnimes_urls :
    ∀ (ds : List PyItem) (animes : List Anime),
      mkAnimes ds = some animes → animes.map Anime.url = blobUrls ds := by
  intro ds
  induction ds with
  | nil =>
    intro animes h
    simp [mkAnimes] at h
    subst h
    simp [blobUrls]
  | cons d rest ih =>
    intro animes h
    simp only [mkAnimes] at h
    cases h1 : mkAnime d with
    | none => rw [h1] at h; simp at h
    | some a =>
      cases h2 : mkAnimes rest with
      | none => rw [h1, h2] at h; simp at h
      | some as2 =>
        rw [h1, h2] at h
        simp at h
        subst h
        simp [blobUrls, List.filterMap_cons, mkAnime_url d a h1]
        have := ih as2 h2
        simpa [blobUrls] using this

/-- C7 (amended): the catalog parse performs no de-duplication — on every
accepted page the entry urls mirror the blob's prefixed urls one for one,
so they are pairwise distinct exactly when the blob's urls are.  (A blob
repeating a url therefore violates uniqueness: see
`catalog_repeated_url_not_nodup`.) -/
theorem catalog_urls_mirror_blob :
    ∀ (u page : String),
      (load_anime_list (animeListInit u) (some page)).state.is_valid = true →
      ((load_anime_list (animeListInit u) (some page)).state.anime.map
            Anime.url
          = blobUrls (load_anime_list (animeListInit u)
              (some page)).state.anime_details)
      ∧ (((load_anime_list (animeListInit u)
              (some page)).state.anime.map Anime.url).Nodup
          ↔ (blobUrls (load_anime_list (animeListInit u)
              (some page)).state.anime_details).Nodup) := by
  intro u page hv
  simp only [load_anime_list] at hv ⊢
  cases h1 : pyEvalList (cleanedBlob page) with
  | none => simp [h1, animeListInit] at hv
  | some ds =>
    cases h2 : mkAnimes ds with
    | none => simp [h1, h2, animeListInit] at hv
    | some animes =>
      simp only [h1, h2]
      have he := mkAnimes_urls ds animes h2
      exact ⟨by simpa using he,
             by rw [show (List.map Anime.url animes) = blobUrls ds from he]⟩

/-- Witness for `catalog_urls_mirror_blob`, at an accepted two-entry
page with distinct urls. -/
theorem catalog_urls_mirror_blob_witness :
    (load_anime_list (animeListInit "user") (some c7okPage)).state.anime.map
        Anime.url
      = blobUrls (load_anime_list (animeListInit "user")
          (some c7okPage)).state.anime_details :=
  (catalog_urls_mirror_blob "user" c7okPage (by decide)).1

/-- C8: a search-results page (results-listing title) whose table has a
single row containing no anchor yields the empty mapping — a valid,
non-raising outcome. -/
theorem empty_search_results_empty_mapping :
    ∀ (p : SearchPage) (r : SearchRow),
      p.title = searchPeopleTitle → p.rows = [r] → r.links = [] →
      search_seiyuu (some p) = .ok [] := by
  intro p r h1 h2 h3
  simp [search_seiyuu, h1, h2, h3]

/-- A concrete empty search-results page. -/
def c8page : SearchPage := ⟨searchPeopleTitle, "h", "/u", [⟨[]⟩]⟩

/-- Witness for `empty_search_results_empty_mapping`. -/
theorem empty_search_results_empty_mapping_witness :
    search_seiyuu (some c8page) = .ok [] :=
  empty_search_results_empty_mapping c8page ⟨[]⟩ rfl rfl rfl

end SeiyuuSearch
